import Mathlib

/-!
Verification of the cursor-based pagination protocol of the
storage-gateway-service-dashboard repository.

The embedded code:
  * `update_pagination`            — storage_gateway_dashboard/api/api.py, lines 117-131
  * `volume_backup_list_paged`     — storage_gateway_dashboard/api/api.py, lines 162-190
  * `volume_checkpoint_list_paged` — storage_gateway_dashboard/api/api.py, lines 414-441
  * `PagedTableMixin` and its `_get_marker` — storage_gateway_dashboard/common/table.py
  * `CheckpointsView.get_data`     — storage_gateway_dashboard/checkpoints/views.py, lines 38-57

Python lists become `List`, `None`-able strings become `Option String`, the
mutating `entities.pop()` becomes `List.dropLast` (it removes exactly the last
element), and a remote call that may raise becomes an `Except`-valued argument.
-/

namespace StorageGateway

/-- A record returned by the remote storage-gateway list endpoint.  The
pagination logic looks only at how many records there are and, through the
marker, at record identity, so the embedding keeps just the identifier. -/
structure Record where
  id : String
deriving DecidableEq, Repr

/-- Embedding of `update_pagination(entities, page_size, marker, sort_dir)`
(api/api.py lines 117-131).  The Python starts with both flags `False`,
then: if `len(entities) > page_size` it sets `has_more_data`, pops the last
element, and sets `has_prev_data` exactly when `marker is not None`;
otherwise if `sort_dir == 'asc'` and the marker is set it sets only
`has_more_data`; otherwise if the marker is set it sets only
`has_prev_data`.  Returns `(entities, has_more_data, has_prev_data)`. -/
def update_pagination {α : Type} (entities : List α) (page_size : Nat)
    (marker : Option String) (sort_dir : String) : List α × Bool × Bool :=
  if entities.length > page_size then
    (entities.dropLast, true, marker.isSome)
  else if sort_dir = "asc" ∧ marker.isSome then
    (entities, true, false)
  else if marker.isSome then
    (entities, false, true)
  else
    (entities, false, false)

/-- Modelled from the spec: the remote list capability (`sgsclient(request)
.backups.list` and its siblings) lives outside this repository.  Spec §6: it
accepts `limit`, `marker` and a sort spec, returns an ordered sequence already
sorted in the requested direction, and `marker` denotes "start strictly after
the record with this identifier".  `records` is the backend's full sequence in
the requested sort order. -/
def backendList (records : List Record) (limit : Nat)
    (marker : Option String) : List Record :=
  match marker with
  | none => records.take limit
  | some m => (((records.dropWhile (fun r => r.id != m)).drop 1).take limit)

/-- Embedding of `volume_backup_list_paged(request, marker, paginate,
sort_dir)` (api/api.py lines 162-190).  `c_client` is `sgsclient(request)`: a
missing client (`None`) short-circuits to `([], False, False)`; otherwise the
client is represented by the backend's record sequence in the requested sort
order, read through `backendList` with `limit = page_size + 1`.
`utils.get_page_size(request)` becomes the `page_size` argument.  With
`paginate` false the raw backend listing is returned with both flags false. -/
def volume_backup_list_paged (c_client : Option (List Record))
    (page_size : Nat) (marker : Option String) (paginate : Bool)
    (sort_dir : String) : List Record × Bool × Bool :=
  match c_client with
  | none => ([], false, false)
  | some records =>
    if paginate then
      update_pagination (backendList records (page_size + 1) marker)
        page_size marker sort_dir
    else
      (records, false, false)

/-- Embedding of `volume_checkpoint_list_paged` on its `paginate=True` path
(api/api.py lines 414-441), as `CheckpointsView.get_data` invokes it.
`listCall` is the outcome of the remote
`c_client.checkpoints.list(limit=page_size+1, marker=marker, sort=sort)`
call: `Except.error` is the call raising, which the Python for-loop
propagates — `update_pagination` is then never reached. -/
def volume_checkpoint_list_paged (listCall : Except String (List Record))
    (page_size : Nat) (marker : Option String) (sort_dir : String) :
    Except String (List Record × Bool × Bool) :=
  match listCall with
  | .error e => .error e
  | .ok fetched => .ok (update_pagination fetched page_size marker sort_dir)

/-- Python truthiness of an optional query-string value: `None` and the empty
string are falsy, every other string is truthy. -/
def truthy : Option String → Bool
  | none => false
  | some s => s != ""

/-- Embedding of `PagedTableMixin._get_marker` (common/table.py lines 28-40).
`prev_marker` and `marker` are the two pagination query parameters as Django
delivers them: `request.GET.get(param, None)`, so `none` when absent and
possibly `some ""` when supplied empty.  The Python tests them with bare
`if prev_marker:` / `if marker:`, i.e. truthiness. -/
def get_marker_resolution (prev_marker : Option String)
    (marker : Option String) : Option String × String :=
  if truthy prev_marker then
    (prev_marker, "asc")
  else if truthy marker then
    (marker, "desc")
  else
    (none, "desc")

/-- Embedding of `CheckpointsView.get_data` (checkpoints/views.py lines
38-57) together with the flag state of `PagedTableMixin` (initialised to
`False, False` in `__init__`).  `listCall` feeds
`volume_checkpoint_list_paged` as above and `replicationsResult` is the
outcome of `sg_api.volume_replication_list`.  The `except Exception:` handler
(`exceptions.handle`, a non-fatal inline error) leaves `checkpoints` and the
mixin flags at whatever they held when the raise happened.  The result pairs
what the presentation layer reads — `(checkpoints, _has_more_data,
_has_prev_data)` — with whether the error handler fired. -/
def checkpoints_get_data (listCall : Except String (List Record))
    (page_size : Nat) (prev_marker : Option String)
    (next_marker : Option String)
    (replicationsResult : Except String (List Record)) :
    (List Record × Bool × Bool) × Bool :=
  let md := get_marker_resolution prev_marker next_marker
  match volume_checkpoint_list_paged listCall page_size md.1 md.2 with
  | .error _ => (([], false, false), true)
  | .ok (cps, more, prev) =>
    match replicationsResult with
    | .error _ => ((cps, more, prev), true)
    | .ok _ => ((cps, more, prev), false)

/-- The spec's trim-and-flag algorithm (spec §4.1), transcribed from the
spec's words for comparison with the code's `update_pagination`:
1. returned count exceeds `page_size` → drop the last (overshoot) record,
   `has_more = true`, and `has_prev = true` iff the cursor was non-null;
2. else if `direction == asc` and the cursor is non-null → `has_more = true`,
   `has_prev = false`;
3. else if the cursor is non-null → `has_prev = true`, `has_more = false`;
4. else → both flags false, items unchanged. -/
def trimAndFlagSpec {α : Type} (entities : List α) (page_size : Nat)
    (cursor : Option String) (direction : String) : List α × Bool × Bool :=
  if page_size < entities.length then
    (entities.dropLast, true, cursor ≠ none)
  else if direction = "asc" ∧ cursor ≠ none then
    (entities, true, false)
  else if cursor ≠ none then
    (entities, false, true)
  else
    (entities, false, false)

/-- Sample records used by the concrete counterexamples and witnesses. -/
def recA : Record := ⟨"a"⟩

/-- A second sample record. -/
def recB : Record := ⟨"b"⟩

/-- A third sample record. -/
def recC : Record := ⟨"c"⟩

/-- C1: for every list of fetched records, every positive `page_size`, every
optional `marker`, and every `sort_dir`, `update_pagination` returns exactly
what the spec's trim-and-flag algorithm (`trimAndFlagSpec`) prescribes. -/
theorem update_pagination_eq_trimAndFlagSpec {α : Type} (entities : List α)
    (page_size : Nat) (marker : Option String) (sort_dir : String)
    (hpos : 0 < page_size) :
    update_pagination entities page_size marker sort_dir =
      trimAndFlagSpec entities page_size marker sort_dir := by
  cases marker <;>
    simp [update_pagination, trimAndFlagSpec]

theorem update_pagination_eq_trimAndFlagSpec_witness :
    0 < 2 ∧ update_pagination [recA, recB, recC] 2 (some "b") "desc" =
      trimAndFlagSpec [recA, recB, recC] 2 (some "b") "desc" :=
  ⟨by decide,
   update_pagination_eq_trimAndFlagSpec [recA, recB, recC] 2 (some "b") "desc"
     (by decide)⟩

/-- C2 counterexample: with three fetched records and `page_size = 1` the
code pops only one record, so two items remain — the claimed invariant
`items.length ≤ page_size` fails when the backend returns more than
`page_size + 1` records. -/
theorem update_pagination_length_counterexample :
    ¬ ((update_pagination [recA, recB, recC] 1 (none : Option String)
        "desc").1.length ≤ 1) := by
  decide

/-- C2 amended: the items returned by `update_pagination` number at most
`page_size` whenever the fetched list holds at most `page_size + 1` records —
which the paged fetchers guarantee by requesting `limit = page_size + 1`. -/
theorem update_pagination_length_le {α : Type} (entities : List α)
    (page_size : Nat) (marker : Option String) (sort_dir : String)
    (h : entities.length ≤ page_size + 1) :
    (update_pagination entities page_size marker sort_dir).1.length
      ≤ page_size := by
  unfold update_pagination
  split_ifs <;> simp [List.length_dropLast] <;> omega

theorem update_pagination_length_le_witness :
    [recA, recB].length ≤ 1 + 1 ∧
      (update_pagination [recA, recB] 1 (some "x") "desc").1.length ≤ 1 :=
  ⟨by decide,
   update_pagination_length_le [recA, recB] 1 (some "x") "desc" (by decide)⟩

/-- C3: when the underlying remote list call raises, `CheckpointsView
.get_data` performs no trimming or flag-setting: the caller receives zero
items with both flags false, and the error handler fires — never a partial
or trimmed result. -/
theorem checkpoints_get_data_error (e : String) (page_size : Nat)
    (prev_marker next_marker : Option String)
    (replicationsResult : Except String (List Record)) :
    checkpoints_get_data (.error e) page_size prev_marker next_marker
      replicationsResult = (([], false, false), true) := rfl

/-- C4: for `page_size ≥ 1` and a backend holding any record sequence, a
first-page request (`marker = none`, direction `desc`) through
`volume_backup_list_paged` returns exactly `min N page_size` items,
`has_more = (N > page_size)`, and `has_prev = false`. -/
theorem first_page_desc (records : List Record) (page_size : Nat)
    (hpos : 1 ≤ page_size) :
    ((volume_backup_list_paged (some records) page_size none true
        "desc").1.length = min records.length page_size) ∧
    ((volume_backup_list_paged (some records) page_size none true
        "desc").2.1 = true ↔ page_size < records.length) ∧
    (volume_backup_list_paged (some records) page_size none true
        "desc").2.2 = false := by
  have hres : volume_backup_list_paged (some records) page_size none true
      "desc" = update_pagination (records.take (page_size + 1)) page_size
      none "desc" := rfl
  rw [hres]
  by_cases hlen : page_size < records.length
  · have htake : (records.take (page_size + 1)).length = page_size + 1 := by
      rw [List.length_take]; omega
    unfold update_pagination
    rw [if_pos (by omega)]
    refine ⟨?_, ?_, rfl⟩
    · rw [List.length_dropLast, htake]; omega
    · simpa using hlen
  · have htake : records.take (page_size + 1) = records :=
      List.take_of_length_le (by omega)
    unfold update_pagination
    rw [htake, if_neg (by omega),
      if_neg (fun hc => by simp at hc),
      if_neg (fun hc => by simp at hc)]
    refine ⟨?_, ?_, rfl⟩
    · show records.length = min records.length page_size
      omega
    · show false = true ↔ page_size < records.length
      simp
      omega

theorem first_page_desc_witness :
    1 ≤ 2 ∧ ((volume_backup_list_paged (some [recA, recB, recC]) 2 none true
      "desc").2.1 = true ↔ 2 < [recA, recB, recC].length) :=
  ⟨by decide, (first_page_desc [recA, recB, recC] 2 (by decide)).2.1⟩

/-- C5 counterexample: a page request with `sort_dir = asc` and a marker for
which the fetch returned exactly `page_size` records (no overshoot) yields
`has_more = true`, not `false` as the claim states for every page request. -/
theorem exact_page_has_more_counterexample :
    [recA].length = 1 ∧
      ¬ ((update_pagination [recA] 1 (some "b") "asc").2.1 = false) := by
  decide

/-- C5 amended: when the fetch returns exactly `page_size` records and the
request is in the `desc` direction or carries no marker, `has_more` is false;
and for every page request for which the fetch returns `page_size + 1`
records, `has_more` is true and the items exclude the overshoot (last)
record. -/
theorem update_pagination_boundary {α : Type} (entities : List α)
    (page_size : Nat) (marker : Option String) (sort_dir : String) :
    (entities.length = page_size → sort_dir = "desc" ∨ marker = none →
      (update_pagination entities page_size marker sort_dir).2.1 = false) ∧
    (entities.length = page_size + 1 →
      (update_pagination entities page_size marker sort_dir).2.1 = true ∧
      (update_pagination entities page_size marker sort_dir).1
        = entities.dropLast) := by
  constructor
  · intro hlen hdir
    unfold update_pagination
    split_ifs with h1 h2 h3
    · omega
    · rcases hdir with hd | hm
      · rw [hd] at h2
        exact absurd h2.1 (by decide)
      · rw [hm] at h2
        simp at h2
    · rfl
    · rfl
  · intro hlen
    unfold update_pagination
    rw [if_pos (by omega)]
    exact ⟨rfl, rfl⟩

theorem update_pagination_boundary_witness :
    (update_pagination [recA] 1 (some "x") "desc").2.1 = false ∧
      (update_pagination [recA, recB] 1 (some "x") "desc").2.1 = true :=
  ⟨(update_pagination_boundary [recA] 1 (some "x") "desc").1 (by decide)
      (Or.inl rfl),
   ((update_pagination_boundary [recA, recB] 1 (some "x") "desc").2
      (by decide)).1⟩

/-- C6: with `sort_dir = asc`, a non-null marker, and at most `page_size`
records fetched (no overshoot), `update_pagination` returns the items
unchanged with `has_more = true` and `has_prev = false`. -/
theorem update_pagination_asc_marker {α : Type} (entities : List α)
    (page_size : Nat) (m : String) (h : entities.length ≤ page_size) :
    update_pagination entities page_size (some m) "asc"
      = (entities, true, false) := by
  unfold update_pagination
  rw [if_neg (by omega), if_pos ⟨rfl, rfl⟩]

theorem update_pagination_asc_marker_witness :
    [recA].length ≤ 2 ∧
      update_pagination [recA] 2 (some "b") "asc" = ([recA], true, false) :=
  ⟨by decide, update_pagination_asc_marker [recA] 2 "b" (by decide)⟩

/-- C7 counterexample: a prev-marker that is present but empty is falsy in
Python, so the code falls through to the next-marker branch instead of
returning `(some "", asc)` as the claim prescribes for every present
prev-marker. -/
theorem get_marker_empty_prev_counterexample :
    ¬ (get_marker_resolution (some "") (some "m")
        = ((some "" : Option String), "asc")) := by
  decide

/-- C7 amended: reading "present" as supplied with a non-empty value (Python
truthiness — `None` and the empty string count as absent): a truthy
prev-marker yields `(prev-marker, asc)`; otherwise a truthy next-marker
yields `(next-marker, desc)`; otherwise the result is `(none, desc)`. -/
theorem get_marker_resolution_cases (prev_marker next_marker : Option String) :
    (∀ p, prev_marker = some p → p ≠ "" →
      get_marker_resolution prev_marker next_marker = (some p, "asc")) ∧
    ((prev_marker = none ∨ prev_marker = some "") →
      ∀ n, next_marker = some n → n ≠ "" →
      get_marker_resolution prev_marker next_marker = (some n, "desc")) ∧
    ((prev_marker = none ∨ prev_marker = some "") →
      (next_marker = none ∨ next_marker = some "") →
      get_marker_resolution prev_marker next_marker = (none, "desc")) := by
  refine ⟨?_, ?_, ?_⟩
  · intro p hp hne
    subst hp
    unfold get_marker_resolution
    rw [if_pos (by simp [truthy, hne])]
  · intro hprev n hn hne
    subst hn
    have hpf : truthy prev_marker = false := by
      rcases hprev with h | h <;> subst h <;> simp [truthy]
    unfold get_marker_resolution
    rw [if_neg (by simp [hpf]), if_pos (by simp [truthy, hne])]
  · intro hprev hnext
    have hpf : truthy prev_marker = false := by
      rcases hprev with h | h <;> subst h <;> simp [truthy]
    have hnf : truthy next_marker = false := by
      rcases hnext with h | h <;> subst h <;> simp [truthy]
    unfold get_marker_resolution
    rw [if_neg (by simp [hpf]), if_neg (by simp [hnf])]

theorem get_marker_resolution_cases_witness :
    get_marker_resolution (some "p1") (some "m1") = (some "p1", "asc") ∧
    get_marker_resolution none (some "m1") = (some "m1", "desc") ∧
    get_marker_resolution none none = (none, "desc") :=
  ⟨(get_marker_resolution_cases (some "p1") (some "m1")).1 "p1" rfl
      (by decide),
   (get_marker_resolution_cases none (some "m1")).2.1 (Or.inl rfl) "m1" rfl
      (by decide),
   (get_marker_resolution_cases none none).2.2 (Or.inl rfl) (Or.inl rfl)⟩

/-- C8: the paged fetch is deterministic — two runs with the same cursor,
direction, and page size against the same backend state produce identical
items and flags (there is no hidden mutable state in the fetch path; the
mixin flags are overwritten, not accumulated, on every request). -/
theorem paged_fetch_deterministic (c_client : Option (List Record))
    (page_size : Nat) (marker : Option String) (sort_dir : String) :
    volume_backup_list_paged c_client page_size marker true sort_dir =
      volume_backup_list_paged c_client page_size marker true sort_dir := rfl

/-- C9: whenever the marker is null, `update_pagination` returns
`has_prev = false`, whatever the record count, page size, or direction. -/
theorem update_pagination_no_marker_no_prev {α : Type} (entities : List α)
    (page_size : Nat) (sort_dir : String) :
    (update_pagination entities page_size none sort_dir).2.2 = false := by
  unfold update_pagination
  split_ifs <;> simp_all

/-- C10: the items returned by `update_pagination` are a prefix of the
fetched list in its original order — exactly the last record is removed when
the count exceeds `page_size`, and the list is unchanged otherwise. -/
theorem update_pagination_items_prefix {α : Type} (entities : List α)
    (page_size : Nat) (marker : Option String) (sort_dir : String) :
    ((update_pagination entities page_size marker sort_dir).1 =
      if page_size < entities.length then entities.dropLast else entities) ∧
    (update_pagination entities page_size marker sort_dir).1 <+: entities := by
  constructor
  · unfold update_pagination
    split_ifs <;> rfl
  · unfold update_pagination
    split_ifs <;>
      first
        | exact List.dropLast_prefix _
        | exact List.prefix_refl _

end StorageGateway
